import Mathlib

/-!
Verification development for the todofordevs CLI authentication and
session-lifecycle subsystem.

The definitions below are a shallow embedding of the TypeScript source:

* the config module (`src/config.ts`, re-exported next to `eslint.config.js`
  in this snapshot): the persisted `CliConfig` record and the operations
  `getActiveProject` / `setActiveProject` / `clearActiveProject` /
  `getAuthToken` / `setAuthToken` / `clearAuthToken` / `isAuthenticated` /
  `needsTokenRefresh`;
* the auth module (`src/utils/auth.ts`): `pollForToken`, `initiateLogin`,
  `logout`;
* the request interceptor of `src/utils/api.ts`.

Timestamps are modelled as rationals (milliseconds since the epoch), so the
JavaScript `interval * 1.5` backoff arithmetic is exact: every value that
arises is dyadic and hence also exact in IEEE doubles.  JavaScript truthiness
tests (`if (!token)`, `if (expiresAt && ...)`) are translated as emptiness /
zero tests.  Network effects are modelled by passing the schedule of server
responses as explicit data, and console output relevant to the claims
(warnings, failure messages, the progress-indicator timer) is tracked in the
returned state.
-/

/-- The `user` object stored alongside a token (`auth.user` in the config
schema and the `AuthResponse.user` payload). -/
structure AuthUser where
  id : String
  email : String
  name : Option String
deriving DecidableEq, Repr

/-- The persisted `auth` record.  In the config schema `expiresAt` is an
optional field; `setAuthToken` always writes it. -/
structure AuthRecord where
  token : String
  expiresAt : Option ℚ
  user : Option AuthUser
deriving DecidableEq, Repr

/-- The persisted `activeProject` record. -/
structure ActiveProject where
  id : String
  name : String
deriving DecidableEq, Repr

/-- The whole persisted configuration (`CliConfig` in `src/config.ts`):
a single structured record with exactly the two optional keys
`activeProject` and `auth`. -/
structure CliConfig where
  activeProject : Option ActiveProject
  auth : Option AuthRecord
deriving DecidableEq, Repr

/-- A fresh store, before any key has been written. -/
def emptyConfig : CliConfig := { activeProject := none, auth := none }

/-- Source `getActiveProject()`: reads the `activeProject` key. -/
def getActiveProject (c : CliConfig) : Option ActiveProject :=
  c.activeProject

/-- Source `setActiveProject(id, name)`: writes the `activeProject` key. -/
def setActiveProject (id name : String) (c : CliConfig) : CliConfig :=
  { c with activeProject := some { id := id, name := name } }

/-- Source `clearActiveProject()`: deletes the `activeProject` key. -/
def clearActiveProject (c : CliConfig) : CliConfig :=
  { c with activeProject := none }

/-- Source `getAuthToken()`: reads `auth.token`. -/
def getAuthToken (c : CliConfig) : Option String :=
  c.auth.map AuthRecord.token

/-- Source `getAuthUser()`: reads `auth.user`. -/
def getAuthUser (c : CliConfig) : Option AuthUser :=
  c.auth.bind AuthRecord.user

/-- Source `setAuthToken(token, user?)`: one write of the whole `auth` record that
stores the token together with `expiresAt = Date.now() + 24*60*60*1000` and
the user snapshot.  `now` is the value of `Date.now()` at the call. -/
def setAuthToken (now : ℚ) (token : String) (user : Option AuthUser)
    (c : CliConfig) : CliConfig :=
  { c with
    auth := some
      { token := token
        expiresAt := some (now + 24 * 60 * 60 * 1000)
        user := user } }

/-- Source `clearAuthToken()`: deletes the whole `auth`
record (token, expiry and user) at once. -/
def clearAuthToken (c : CliConfig) : CliConfig :=
  { c with auth := none }

/-- Source `isAuthenticated()`.  Returns `false` when the token is absent (or the
empty string, which is falsy in JavaScript); otherwise, when a numeric,
nonzero (truthy) `expiresAt` is stored, returns `false` exactly when it is
less than five minutes in the future, and `true` in every remaining case. -/
def isAuthenticated (now : ℚ) (c : CliConfig) : Bool :=
  match getAuthToken c with
  | none => false
  | some token =>
    if token = "" then false
    else
      match c.auth.bind AuthRecord.expiresAt with
      | some expiresAt =>
        if expiresAt ≠ 0 then
          if expiresAt < now + 5 * 60 * 1000 then false else true
        else true
      | none => true

/-- Source `needsTokenRefresh()`: `false` when the token is absent (or empty);
otherwise `true` exactly when a truthy stored `expiresAt` is less than one
hour in the future. -/
def needsTokenRefresh (now : ℚ) (c : CliConfig) : Bool :=
  match getAuthToken c with
  | none => false
  | some token =>
    if token = "" then false
    else
      match c.auth.bind AuthRecord.expiresAt with
      | some expiresAt =>
        if expiresAt ≠ 0 then
          if expiresAt < now + 60 * 60 * 1000 then true else false
        else false
      | none => false

/-- The operations through which the repository mutates the persisted
configuration (the four `config.set` / `config.delete` call sites in
`src/config.ts`). -/
inductive ConfigOp where
  | setActive (id name : String)
  | clearActive
  | storeToken (now : ℚ) (token : String) (user : Option AuthUser)
  | clearToken
deriving DecidableEq, Repr

/-- Interpret one store operation. -/
def applyOp : ConfigOp → CliConfig → CliConfig
  | ConfigOp.setActive id name, c => setActiveProject id name c
  | ConfigOp.clearActive, c => clearActiveProject c
  | ConfigOp.storeToken now tok u, c => setAuthToken now tok u c
  | ConfigOp.clearToken, c => clearAuthToken c

/-- Run a sequence of store operations. -/
def applyOps (ops : List ConfigOp) (c : CliConfig) : CliConfig :=
  ops.foldl (fun c op => applyOp op c) c

/-- The token/expiry pairing invariant: whenever an `auth` record is
present it carries an `expiresAt` value. -/
def authConsistent (c : CliConfig) : Bool :=
  match c.auth with
  | none => true
  | some a => a.expiresAt.isSome

/-- One server answer to a token poll (`get(endpoints.auth.token(code))`):
either a resolved `AuthResponse`, or the axios error rejecting the request.
`pending` is the HTTP-400 `authorization_pending` error; `transientError`
is any other rejection, carrying its `error.message`. -/
inductive PollResponse where
  | success (token : String) (user : AuthUser)
  | pending
  | transientError (msg : String)
deriving DecidableEq, Repr

/-- How `pollForToken` came back: resolved `true` (token stored), resolved
`false` (grant window elapsed), or — a model artifact — the supplied response
schedule ran out while the loop would still poll. -/
inductive PollResult where
  | success
  | timedOut
  | exhausted
deriving DecidableEq, Repr

/-- The observable state threaded through `pollForToken`: the clock, the
mutable `interval` and `attempts` variables, whether the repeating
progress-indicator timer (`progressInterval`) is currently scheduled, the
persisted configuration, the trace of slept intervals (seconds, one entry
per `setTimeout(interval * 1000)` call) and the attempt numbers named in
surfaced transient-error warnings. -/
structure PollState where
  now : ℚ
  interval : ℚ
  attempts : ℕ
  timerActive : Bool
  config : CliConfig
  sleeps : List ℚ
  warnings : List ℕ
deriving DecidableEq, Repr

/-- Main loop of `pollForToken` (`while (Date.now() < expiresAt)`), consuming
one scheduled server response per iteration.  Each iteration increments
`attempts`, sleeps for the current interval, then polls:

* a truthy `response.token` clears the progress indicator, stores the
  session via `setAuthToken` and resolves `true`;
* an `authorization_pending` rejection updates
  `interval := min(interval * 1.5, 30)` and continues silently;
* any other rejection leaves the interval untouched and continues; unless
  silent it also clears the indicator, surfaces a warning naming the
  attempt number, and restarts the indicator.

When the deadline has passed the loop exits, the indicator is cleared and
the call resolves `false`. -/
def pollLoop (silent : Bool) (expiresAt : ℚ) :
    List PollResponse → PollState → PollResult × PollState
  | [], s =>
    if s.now < expiresAt then
      (PollResult.exhausted, s)
    else
      (PollResult.timedOut, { s with timerActive := false })
  | r :: rest, s =>
    if s.now < expiresAt then
      let s1 : PollState :=
        { s with
          attempts := s.attempts + 1
          now := s.now + s.interval * 1000
          sleeps := s.sleeps ++ [s.interval] }
      match r with
      | PollResponse.success tok user =>
        if tok ≠ "" then
          (PollResult.success,
            { s1 with
              timerActive := false
              config := setAuthToken s1.now tok (some user) s1.config })
        else
          pollLoop silent expiresAt rest s1
      | PollResponse.pending =>
        pollLoop silent expiresAt rest
          { s1 with interval := min (s1.interval * (3 / 2)) 30 }
      | PollResponse.transientError _ =>
        if silent then
          pollLoop silent expiresAt rest s1
        else
          pollLoop silent expiresAt rest
            { s1 with
              timerActive := true
              warnings := s1.warnings ++ [s1.attempts] }
    else
      (PollResult.timedOut, { s with timerActive := false })

/-- Source `pollForToken(deviceCode, initialInterval, expiresIn, silent)` entered at
time `t0` with configuration `c` and server-response schedule `rs`.  The
deadline is `startTime + expiresIn * 1000`, and the progress indicator is
started exactly when not silent. -/
def pollForToken (t0 initialInterval expiresIn : ℚ) (silent : Bool)
    (rs : List PollResponse) (c : CliConfig) : PollResult × PollState :=
  pollLoop silent (t0 + expiresIn * 1000) rs
    { now := t0
      interval := initialInterval
      attempts := 0
      timerActive := !silent
      config := c
      sleeps := []
      warnings := [] }

/-- The outer `catch` of `pollForToken` (an unexpected thrown error): it
clears the progress indicator — a no-op when none is scheduled — before
rethrowing. -/
def pollOuterCatch (s : PollState) : PollState :=
  { s with timerActive := false }

/-- The `DeviceCodeResponse` payload of the initial grant request. -/
structure DeviceCodeResponse where
  device_code : String
  user_code : String
  verification_uri : String
  expires_in : ℚ
  interval : ℚ
deriving DecidableEq, Repr

/-- The errors `initiateLogin` can rethrow to its caller: the failure of the
initial grant request (`post(endpoints.auth.login())` rejecting), or the
failure of `open(verification_uri)` — which is only attempted when not
silent and is not caught locally. -/
inductive LoginThrow where
  | grantRequestError (msg : String)
  | browserOpenError (uri : String)
deriving DecidableEq, Repr

/-- The external world an `initiateLogin` run interacts with: the outcome of
the grant request, whether the clipboard write and the browser launch
succeed, and the schedule of poll responses. -/
structure LoginEnv where
  grantResult : Except String DeviceCodeResponse
  clipboardOk : Bool
  browserOk : Bool
  responses : List PollResponse
deriving Repr

/-- What a normally-resolving `initiateLogin` call amounts to: the result of
`pollForToken`, the final polling state (configuration included), and which
of the terminal console messages were printed.  The function itself is
declared `Promise<void>`: it resolves with no value. -/
structure LoginFinal where
  pollResult : PollResult
  state : PollState
  successShown : Bool
  failureShown : Bool
deriving DecidableEq, Repr

/-- Source `initiateLogin(silent = false)` entered at time `t0` with configuration
`c`.  A grant-request failure is reported ("Failed to initiate login process.", when not silent) and then rethrown — the `throw error` in the
outer catch is unconditional.  When not silent, a failing `open()` likewise
propagates through the same catch.  Otherwise the flow polls; a truthy poll
result prints the success message, a falsy one prints the failed-or-timed-out
error line (both only when not silent), and the call resolves.
The `Bool` carried by the error is whether the interactive failure message
was printed before the rethrow. -/
def initiateLogin (silent : Bool) (t0 : ℚ) (env : LoginEnv) (c : CliConfig) :
    Except (LoginThrow × Bool) LoginFinal :=
  match env.grantResult with
  | Except.error msg =>
    Except.error (LoginThrow.grantRequestError msg, !silent)
  | Except.ok d =>
    if !silent && !env.browserOk then
      Except.error (LoginThrow.browserOpenError d.verification_uri, true)
    else
      let pr := pollForToken t0 d.interval d.expires_in silent env.responses c
      Except.ok
        { pollResult := pr.1
          state := pr.2
          successShown := !silent && pr.1 == PollResult.success
          failureShown := !silent && pr.1 != PollResult.success }

/-- Source `logout()`: clears the auth record via `clearAuthToken` and prints a
success message. -/
def logout (c : CliConfig) : CliConfig × String :=
  (clearAuthToken c, "Successfully logged out.")

/-- Test `config.url?.includes("/auth/")` of the request
interceptor. -/
def isAuthEndpointUrl (url : String) : Bool :=
  decide ("/auth/".toList <:+: url.toList)

/-- What the request interceptor of `src/utils/api.ts` did to one outgoing
request: whether a refresh login was triggered and with which `silent`
argument, whether its failure was downgraded to a warning, whether the
message "Authentication required." was printed, the `Authorization`
header attached, and the configuration after the interceptor ran. -/
structure InterceptorResult where
  refreshCall : Option Bool
  refreshWarned : Bool
  authErrorShown : Bool
  authHeader : Option String
  config : CliConfig
deriving DecidableEq, Repr

/-- Source: the axios request interceptor.  For a non-auth URL, when
`needsTokenRefresh() && isAuthenticated()` holds it awaits
`auth.initiateLogin()` — called with no argument, so `silent` takes its
default value `false`; a thrown refresh error is caught and downgraded to a
warning.  The request then proceeds unconditionally, attaching
`Authorization: Bearer <token>` when a truthy token is present. -/
def requestInterceptor (now : ℚ) (url : String) (env : LoginEnv)
    (c : CliConfig) : InterceptorResult :=
  if !isAuthEndpointUrl url then
    let triggered := needsTokenRefresh now c && isAuthenticated now c
    let step : Option Bool × Bool × CliConfig :=
      if triggered then
        match initiateLogin false now env c with
        | Except.ok fin => (some false, false, fin.state.config)
        | Except.error _ => (some false, true, c)
      else
        (none, false, c)
    { refreshCall := step.1
      refreshWarned := step.2.1
      authErrorShown := !isAuthenticated now step.2.2
      authHeader :=
        match getAuthToken step.2.2 with
        | some t => if t = "" then none else some t
        | none => none
      config := step.2.2 }
  else
    { refreshCall := none
      refreshWarned := false
      authErrorShown := false
      authHeader :=
        match getAuthToken c with
        | some t => if t = "" then none else some t
        | none => none
      config := c }

/-- Classification of the poll responses that do not terminate the loop:
the pending condition and any transient (non-pending) error. -/
def benign : PollResponse → Bool
  | PollResponse.pending => true
  | PollResponse.transientError _ => true
  | PollResponse.success _ _ => false

/-- A sample signed-in identity, used for concrete runs. -/
def sampleUser : AuthUser := { id := "u1", email := "u@example.com", name := none }

/-- A store whose token expires in 30 minutes at time 0: both
`needsTokenRefresh` (less than one hour left) and `isAuthenticated` (more
than five minutes left) hold, so the interceptor must attempt a refresh. -/
def refreshDueConfig : CliConfig :=
  { activeProject := some { id := "p1", name := "proj" }
    auth := some { token := "tok", expiresAt := some 1800000, user := none } }

/-- An environment whose initial grant request fails. -/
def grantFailEnv : LoginEnv :=
  { grantResult := Except.error "network failure"
    clipboardOk := true
    browserOk := true
    responses := [] }

/-- An environment whose grant succeeds with a 10-second window and a
15-second interval, every poll answering the pending condition. -/
def timeoutEnv : LoginEnv :=
  { grantResult := Except.ok
      { device_code := "dev"
        user_code := "usr"
        verification_uri := "https://example.com/verify"
        expires_in := 10
        interval := 15 }
    clipboardOk := true
    browserOk := true
    responses := [PollResponse.pending] }

/-- The concrete run of the spec scenario: poll responses
pending, pending, success with token "T", initial interval 5 seconds,
window 600 seconds, non-silent, empty store. -/
def c3run : PollResult × PollState :=
  pollForToken 0 5 600 false
    [PollResponse.pending, PollResponse.pending, PollResponse.success "T" sampleUser]
    emptyConfig

/-- One store operation preserves the token/expiry pairing invariant. -/
lemma authConsistent_applyOp (op : ConfigOp) (c : CliConfig)
    (h : authConsistent c = true) : authConsistent (applyOp op c) = true := by
  cases op with
  | setActive id name => simpa [applyOp, setActiveProject, authConsistent] using h
  | clearActive => simpa [applyOp, clearActiveProject, authConsistent] using h
  | storeToken now tok u => simp [applyOp, setAuthToken, authConsistent]
  | clearToken => simp [applyOp, clearAuthToken, authConsistent]

/-- Any sequence of store operations preserves the pairing invariant. -/
lemma authConsistent_applyOps (ops : List ConfigOp) (c : CliConfig)
    (h : authConsistent c = true) : authConsistent (applyOps ops c) = true := by
  induction ops generalizing c with
  | nil => simpa [applyOps] using h
  | cons op rest ih => exact ih (applyOp op c) (authConsistent_applyOp op c h)

/-- Once the deadline has passed, the loop exits as a timeout at once,
clearing the indicator and leaving the rest of the state alone. -/
lemma pollLoop_deadline_passed (silent : Bool) (expiresAt : ℚ)
    (rs : List PollResponse) (s : PollState) (h : ¬ s.now < expiresAt) :
    pollLoop silent expiresAt rs s =
      (PollResult.timedOut, { s with timerActive := false }) := by
  cases rs <;> rw [pollLoop] <;> rw [if_neg h]

/-- Whenever the loop resolves (success or timeout), the final state has the
progress-indicator timer cleared. -/
lemma pollLoop_timer_cleared (silent : Bool) (expiresAt : ℚ)
    (rs : List PollResponse) (s : PollState)
    (h : (pollLoop silent expiresAt rs s).1 ≠ PollResult.exhausted) :
    (pollLoop silent expiresAt rs s).2.timerActive = false := by
  induction rs generalizing s with
  | nil =>
    by_cases hc : s.now < expiresAt
    · rw [pollLoop, if_pos hc] at h
      exact absurd rfl h
    · rw [pollLoop, if_neg hc]
  | cons r rest ih =>
    by_cases hc : s.now < expiresAt
    · rw [pollLoop, if_pos hc] at h ⊢
      cases r with
      | success tok user =>
        dsimp only at h ⊢
        by_cases ht : tok ≠ ""
        · rw [if_pos ht]
        · rw [if_neg ht] at h ⊢
          exact ih _ h
      | pending => exact ih _ h
      | transientError m =>
        dsimp only at h ⊢
        by_cases hs : silent = true
        · rw [if_pos hs] at h ⊢
          exact ih _ h
        · rw [if_neg hs] at h ⊢
          exact ih _ h
    · rw [pollLoop, if_neg hc]

/-- After any run of benign (pending or transient) responses that fits in
the grant window, a success response is reached and the token is stored.
`M` bounds every interval the loop can hold: the current one and the
30-second backoff cap. -/
lemma pollLoop_benign_then_success
    (silent : Bool) (expiresAt M : ℚ) (hM : 30 ≤ M)
    (tok : String) (htok : tok ≠ "") (user : AuthUser) :
    ∀ (pre : List PollResponse) (s : PollState),
      (∀ r ∈ pre, benign r = true) →
      s.interval ≤ M →
      s.now + (pre.length : ℚ) * (1000 * M) < expiresAt →
      (pollLoop silent expiresAt (pre ++ [PollResponse.success tok user]) s).1 =
          PollResult.success ∧
      getAuthToken
        (pollLoop silent expiresAt
          (pre ++ [PollResponse.success tok user]) s).2.config = some tok := by
  intro pre
  induction pre with
  | nil =>
    intro s _ _ hbud
    have hnow : s.now < expiresAt := by simpa using hbud
    rw [List.nil_append, pollLoop, if_pos hnow]
    dsimp only
    rw [if_pos htok]
    exact ⟨rfl, rfl⟩
  | cons r rest ih =>
    intro s hb hint hbud
    rw [List.length_cons] at hbud
    push_cast at hbud
    have hnow : s.now < expiresAt := by
      have hnn : (0:ℚ) ≤ ((rest.length : ℚ) + 1) * (1000 * M) := by positivity
      linarith
    have h1 : s.interval * 1000 ≤ 1000 * M := by
      calc s.interval * 1000 ≤ M * 1000 :=
            mul_le_mul_of_nonneg_right hint (by norm_num)
        _ = 1000 * M := mul_comm M 1000
    have expand : ((rest.length : ℚ) + 1) * (1000 * M) =
        (rest.length : ℚ) * (1000 * M) + 1000 * M := by ring
    have key : s.now + s.interval * 1000 + (rest.length : ℚ) * (1000 * M) <
        expiresAt := by
      rw [expand] at hbud
      linarith
    have hb' : ∀ x ∈ rest, benign x = true :=
      fun x hx => hb x (List.mem_cons_of_mem r hx)
    rw [List.cons_append, pollLoop, if_pos hnow]
    cases r with
    | success tok2 user2 =>
      exact absurd (hb _ (List.mem_cons_self _ _)) (by simp [benign])
    | pending =>
      dsimp only
      exact ih _ hb' (le_trans (min_le_right _ _) hM) key
    | transientError m =>
      dsimp only
      by_cases hs : silent = true
      · rw [if_pos hs]
        exact ih _ hb' hint key
      · rw [if_neg hs]
        exact ih _ hb' hint key

/-- C1.  The claim asserts the pre-request refresh runs the Device Login
Flow in silent mode.  In the source the interceptor calls
`auth.initiateLogin()` with no argument, so `silent` takes its default
value `false`: at a store whose token expires in 30 minutes (both
`needsTokenRefresh` and `isAuthenticated` true) and a non-auth URL, the
interceptor triggers the flow with the silent flag `false` — the
interactive mode, with announcements and progress text.  The remaining
half of the claim does hold and is recorded here too: when the refresh
attempt throws, the failure is downgraded to a warning and the request
proceeds with the existing token attached. -/
theorem interceptor_refresh_runs_interactive :
    needsTokenRefresh 0 refreshDueConfig = true ∧
    isAuthenticated 0 refreshDueConfig = true ∧
    requestInterceptor 0 "/projects" grantFailEnv refreshDueConfig =
      { refreshCall := some false
        refreshWarned := true
        authErrorShown := false
        authHeader := some "tok"
        config := refreshDueConfig } := by
  refine ⟨?_, ?_, ?_⟩
  · norm_num [needsTokenRefresh, getAuthToken, refreshDueConfig,
      show ("tok" : String) ≠ "" from by decide]
  · norm_num [isAuthenticated, getAuthToken, refreshDueConfig,
      show ("tok" : String) ≠ "" from by decide]
  · norm_num [requestInterceptor, needsTokenRefresh, isAuthenticated,
      initiateLogin, getAuthToken, refreshDueConfig, grantFailEnv,
      show isAuthEndpointUrl "/projects" = false from by decide,
      show ("tok" : String) ≠ "" from by decide]

/-- C2.  The claim asserts `initiateLogin` returns a boolean and that in
interactive mode no exception reaches the caller.  In the source the
function is declared `Promise<void>` and its outer catch ends in an
unconditional `throw error`: a grant-request failure in interactive mode
prints the failure message and still rethrows (first and second
conjuncts — the second for every mode, environment and store).  The part
of the claim that does hold is recorded in the third and fourth
conjuncts: a polling timeout is not an exception — the call resolves,
with the internal poll result `false` (timed out) and the
interactive failure message shown. -/
theorem initiateLogin_rethrows_interactively :
    (initiateLogin false 0 grantFailEnv emptyConfig =
      Except.error (LoginThrow.grantRequestError "network failure", true)) ∧
    (∀ (silent : Bool) (t0 : ℚ) (c : CliConfig) (msg : String)
        (clip brow : Bool) (rs : List PollResponse),
        initiateLogin silent t0
          { grantResult := Except.error msg
            clipboardOk := clip, browserOk := brow, responses := rs } c =
          Except.error (LoginThrow.grantRequestError msg, !silent)) ∧
    ((initiateLogin false 0 timeoutEnv emptyConfig).map LoginFinal.pollResult =
        Except.ok PollResult.timedOut ∧
     (initiateLogin false 0 timeoutEnv emptyConfig).map LoginFinal.failureShown =
        Except.ok true) := by
  refine ⟨rfl, fun silent t0 c msg clip brow rs => rfl, ?_, ?_⟩
  · norm_num [initiateLogin, timeoutEnv, pollForToken, pollLoop, emptyConfig,
      Except.map]
  · norm_num [initiateLogin, timeoutEnv, pollForToken, pollLoop, emptyConfig,
      Except.map]
    decide

/-- C3 counterexample.  For the response sequence pending, pending,
success "T" with initial interval 5 seconds, the claim names 5 and 7.5
seconds as the effective intervals used.  The loop sleeps before every
poll, the successful one included, so the full trace of slept intervals
is 5, 7.5, 11.25 seconds — not the two-element list the claim states. -/
theorem backoff_trace_counterexample :
    c3run.2.sleeps = [5, 15/2, 45/4] ∧ c3run.2.sleeps ≠ [5, 15/2] := by
  have h : c3run.2.sleeps = [5, 15/2, 45/4] := by
    norm_num [c3run, pollForToken, pollLoop, setAuthToken, emptyConfig,
      show ("T" : String) ≠ "" from by decide]
  exact ⟨h, by rw [h]; simp⟩

/-- C3 as amended.  Each pending response updates the interval to
min(interval * 1.5, 30 seconds) and polling continues with no error
surfaced (first conjunct, the exact loop step).  For the response
sequence pending, pending, success "T" with initial interval 5 seconds,
the flow succeeds and stores token "T", the effective intervals used are
5, 7.5 and 11.25 seconds in that order (the first two preceding the two
pending responses, the third preceding the successful poll), and no
warning is surfaced. -/
theorem backoff_pending_rule_and_trace :
    (∀ (silent : Bool) (expiresAt : ℚ) (rest : List PollResponse) (s : PollState),
        pollLoop silent expiresAt (PollResponse.pending :: rest) s =
          if s.now < expiresAt then
            pollLoop silent expiresAt rest
              { s with
                attempts := s.attempts + 1
                now := s.now + s.interval * 1000
                sleeps := s.sleeps ++ [s.interval]
                interval := min (s.interval * (3 / 2)) 30 }
          else (PollResult.timedOut, { s with timerActive := false })) ∧
    c3run.1 = PollResult.success ∧
    getAuthToken c3run.2.config = some "T" ∧
    c3run.2.sleeps = [5, 15/2, 45/4] ∧
    c3run.2.warnings = [] := by
  refine ⟨?_, ?_⟩
  · intro silent expiresAt rest s
    rw [pollLoop]
  · norm_num [c3run, pollForToken, pollLoop, setAuthToken, getAuthToken, emptyConfig,
      show ("T" : String) ≠ "" from by decide]

/-- C4.  With a 10-second grant window, a 15-second interval and every
response pending, the flow times out: the first iteration sleeps past the
deadline, its poll answers pending, the loop condition then fails, the
result is the timeout (never a successful poll — nothing is ever stored),
and the persisted configuration after the attempt is exactly the
configuration before it. -/
theorem poll_timeout_window
    (t0 : ℚ) (c : CliConfig) (silent : Bool) (r : PollResponse)
    (rs : List PollResponse)
    (hall : ∀ x ∈ r :: rs, x = PollResponse.pending) :
    (pollForToken t0 15 10 silent (r :: rs) c).1 = PollResult.timedOut ∧
    (pollForToken t0 15 10 silent (r :: rs) c).2.config = c := by
  have hr : r = PollResponse.pending := hall r (List.mem_cons_self r rs)
  subst hr
  rw [pollForToken, pollLoop, if_pos (by linarith : t0 < t0 + 10 * 1000)]
  dsimp only
  rw [pollLoop_deadline_passed _ _ _ _ (by norm_num)]
  exact ⟨rfl, rfl⟩

/-- Witness for C4 at the all-pending schedule of length one. -/
theorem poll_timeout_window_witness :
    (∀ x ∈ [PollResponse.pending], x = PollResponse.pending) ∧
    (pollForToken 0 15 10 false [PollResponse.pending] emptyConfig).1 =
      PollResult.timedOut ∧
    (pollForToken 0 15 10 false [PollResponse.pending] emptyConfig).2.config =
      emptyConfig :=
  ⟨by decide,
   (poll_timeout_window 0 emptyConfig false PollResponse.pending [] (by decide)).1,
   (poll_timeout_window 0 emptyConfig false PollResponse.pending [] (by decide)).2⟩

/-- C5.  `isAuthenticated` returns `false` unconditionally when no token
is stored; with a stored token and expiry it returns `false` exactly when
the expiry is less than five minutes past the current time.  The token is
assumed nonempty and the expiry nonzero, as every value the store
operation writes is: JavaScript truthiness makes the source treat the
empty string as an absent token and a zero expiry as an absent expiry. -/
theorem isAuthenticated_spec
    (now e : ℚ) (ap : Option ActiveProject) (tok : String) (u : Option AuthUser)
    (htok : tok ≠ "") (he : e ≠ 0) :
    (∀ (m : ℚ) (ap2 : Option ActiveProject),
        isAuthenticated m { activeProject := ap2, auth := none } = false) ∧
    (isAuthenticated now
        { activeProject := ap
          auth := some { token := tok, expiresAt := some e, user := u } } = false
      ↔ e < now + 5 * 60 * 1000) := by
  refine ⟨fun m ap2 => rfl, ?_⟩
  simp only [isAuthenticated, getAuthToken, Option.map_some']
  rw [if_neg htok]
  simp only [Option.bind]
  rw [if_pos he]
  split_ifs with h <;> simp [h]

/-- Witness for C5 at a token expiring 100 seconds past time 0. -/
theorem isAuthenticated_spec_witness :
    (("t" : String) ≠ "") ∧ ((100000 : ℚ) ≠ 0) ∧
    ((∀ (m : ℚ) (ap2 : Option ActiveProject),
        isAuthenticated m { activeProject := ap2, auth := none } = false) ∧
     (isAuthenticated 0
        { activeProject := none
          auth := some { token := "t", expiresAt := some 100000, user := none } } = false
      ↔ (100000 : ℚ) < 0 + 5 * 60 * 1000)) :=
  ⟨by decide, by norm_num,
    isAuthenticated_spec 0 100000 none "t" none (by decide) (by norm_num)⟩

/-- C6.  With a stored token and expiry, `needsTokenRefresh` returns
`true` exactly when the expiry is less than one hour past the current
time (same truthiness provisos as C5); and it is idempotent — the
embedding makes it a pure function of the clock and the store, so two
calls at the same time on the same store are one and the same value. -/
theorem needsTokenRefresh_spec
    (now e : ℚ) (ap : Option ActiveProject) (tok : String) (u : Option AuthUser)
    (htok : tok ≠ "") (he : e ≠ 0) :
    (needsTokenRefresh now
        { activeProject := ap
          auth := some { token := tok, expiresAt := some e, user := u } } = true
      ↔ e < now + 60 * 60 * 1000) ∧
    (needsTokenRefresh now
        { activeProject := ap
          auth := some { token := tok, expiresAt := some e, user := u } } =
      needsTokenRefresh now
        { activeProject := ap
          auth := some { token := tok, expiresAt := some e, user := u } }) := by
  refine ⟨?_, rfl⟩
  simp only [needsTokenRefresh, getAuthToken, Option.map_some']
  rw [if_neg htok]
  simp only [Option.bind]
  rw [if_pos he]
  split_ifs with h <;> simp [h]

/-- Witness for C6 at a token expiring 100 seconds past time 0. -/
theorem needsTokenRefresh_spec_witness :
    (("t" : String) ≠ "") ∧ ((100000 : ℚ) ≠ 0) ∧
    (needsTokenRefresh 0
        { activeProject := none
          auth := some { token := "t", expiresAt := some 100000, user := none } } = true
      ↔ (100000 : ℚ) < 0 + 60 * 60 * 1000) :=
  ⟨by decide, by norm_num,
    (needsTokenRefresh_spec 0 100000 none "t" none (by decide) (by norm_num)).1⟩

/-- C7.  Every poll-response sequence of pending and transient (non-pending)
errors that fits in the grant window, followed by a success, still stores
the session: the run resolves as a success and the store holds the token
(first conjunct; the budget hypothesis bounds the slept time, each slept
interval being at most the larger of the initial interval and the
30-second backoff cap).  The second conjunct is the exact transient-error
step: the interval is left untouched (no backoff adjustment), the loop
continues (no abort), and — unless silent — a warning naming the attempt
number is surfaced and the progress indicator restarted. -/
theorem transient_then_success_stores_session
    (t0 i e : ℚ) (silent : Bool) (c : CliConfig)
    (pre : List PollResponse) (tok : String) (user : AuthUser)
    (hb : ∀ r ∈ pre, benign r = true)
    (htok : tok ≠ "")
    (hbud : t0 + (pre.length : ℚ) * (1000 * max i 30) < t0 + e * 1000) :
    ((pollForToken t0 i e silent (pre ++ [PollResponse.success tok user]) c).1 =
        PollResult.success ∧
     getAuthToken
       (pollForToken t0 i e silent
          (pre ++ [PollResponse.success tok user]) c).2.config = some tok) ∧
    (∀ (m : String) (rest : List PollResponse) (s : PollState),
        pollLoop silent (t0 + e * 1000)
            (PollResponse.transientError m :: rest) s =
          if s.now < t0 + e * 1000 then
            pollLoop silent (t0 + e * 1000) rest
              (if silent then
                { s with
                  attempts := s.attempts + 1
                  now := s.now + s.interval * 1000
                  sleeps := s.sleeps ++ [s.interval] }
               else
                { s with
                  attempts := s.attempts + 1
                  now := s.now + s.interval * 1000
                  sleeps := s.sleeps ++ [s.interval]
                  timerActive := true
                  warnings := s.warnings ++ [s.attempts + 1] })
          else (PollResult.timedOut, { s with timerActive := false })) := by
  constructor
  · exact pollLoop_benign_then_success silent (t0 + e * 1000) (max i 30)
      (le_max_right i 30) tok htok user pre
      { now := t0, interval := i, attempts := 0, timerActive := !silent,
        config := c, sleeps := [], warnings := [] }
      hb (le_max_left i 30) hbud
  · intro m rest s
    by_cases hc : s.now < t0 + e * 1000
    · rw [pollLoop, if_pos hc, if_pos hc]
      dsimp only
      by_cases hs : silent = true
      · rw [if_pos hs, if_pos hs]
      · rw [if_neg hs, if_neg hs]
    · rw [pollLoop, if_neg hc, if_neg hc]

/-- Witness for C7: one transient error followed by a success, inside a
600-second window with initial interval 5 seconds. -/
theorem transient_then_success_stores_session_witness :
    (∀ r ∈ [PollResponse.transientError "boom"], benign r = true) ∧
    ("T" : String) ≠ "" ∧
    (pollForToken 0 5 600 false
        ([PollResponse.transientError "boom"] ++
          [PollResponse.success "T" sampleUser]) emptyConfig).1 =
      PollResult.success ∧
    getAuthToken
      (pollForToken 0 5 600 false
        ([PollResponse.transientError "boom"] ++
          [PollResponse.success "T" sampleUser]) emptyConfig).2.config =
      some "T" :=
  ⟨by decide, by decide,
   (transient_then_success_stores_session 0 5 600 false emptyConfig
      [PollResponse.transientError "boom"] "T" sampleUser (by decide) (by decide)
      (by norm_num [max_def])).1.1,
   (transient_then_success_stores_session 0 5 600 false emptyConfig
      [PollResponse.transientError "boom"] "T" sampleUser (by decide) (by decide)
      (by norm_num [max_def])).1.2⟩

/-- C8.  On every resolving exit path of `pollForToken` — success and
timeout alike, in either mode — the final state has the repeating
progress-indicator timer cancelled; and the outer catch guarding the
thrown-error path likewise leaves the timer cancelled, so the routine
never returns or throws while the timer is still scheduled.  (The
excluded `exhausted` result is the model artifact of running out of
scheduled responses, not an exit of the source loop.) -/
theorem progress_timer_cleared_on_exit
    (t0 i e : ℚ) (silent : Bool) (rs : List PollResponse) (c : CliConfig)
    (h : (pollForToken t0 i e silent rs c).1 ≠ PollResult.exhausted) :
    (pollForToken t0 i e silent rs c).2.timerActive = false ∧
    (∀ s : PollState, (pollOuterCatch s).timerActive = false) :=
  ⟨pollLoop_timer_cleared silent (t0 + e * 1000) rs _ h, fun _ => rfl⟩

/-- Witness for C8 at an immediately-successful poll. -/
theorem progress_timer_cleared_on_exit_witness :
    ((pollForToken 0 5 600 false [PollResponse.success "T" sampleUser]
        emptyConfig).1 ≠ PollResult.exhausted) ∧
    (pollForToken 0 5 600 false [PollResponse.success "T" sampleUser]
        emptyConfig).2.timerActive = false :=
  ⟨by
    norm_num [pollForToken, pollLoop, emptyConfig,
      show ("T" : String) ≠ "" from by decide]
    decide,
   (progress_timer_cleared_on_exit 0 5 600 false _ emptyConfig
      (by
        norm_num [pollForToken, pollLoop, emptyConfig,
          show ("T" : String) ≠ "" from by decide]
        decide)).1⟩

/-- C9.  Every store operation preserves the invariant that the persisted
token and expiry are present together or absent together: from any
consistent store, any sequence of the four store operations leaves a
consistent store (first conjunct); `setAuthToken` writes the token and
`expiresAt = now + 24 hours` together in one record write, and
`clearAuthToken` removes the whole record at once (second and third
conjuncts). -/
theorem auth_pair_atomic (ops : List ConfigOp) (c : CliConfig)
    (h : authConsistent c = true) :
    authConsistent (applyOps ops c) = true ∧
    (∀ (now : ℚ) (tok : String) (u : Option AuthUser) (c2 : CliConfig),
        (setAuthToken now tok u c2).auth =
          some { token := tok
                 expiresAt := some (now + 24 * 60 * 60 * 1000)
                 user := u } ∧
        (clearAuthToken c2).auth = none) :=
  ⟨authConsistent_applyOps ops c h, fun _ _ _ _ => ⟨rfl, rfl⟩⟩

/-- Witness for C9: storing then clearing a token from the fresh store. -/
theorem auth_pair_atomic_witness :
    authConsistent emptyConfig = true ∧
    authConsistent
      (applyOps [ConfigOp.storeToken 0 "t" none, ConfigOp.clearToken]
        emptyConfig) = true :=
  ⟨rfl, (auth_pair_atomic [ConfigOp.storeToken 0 "t" none, ConfigOp.clearToken]
      emptyConfig rfl).1⟩

/-- C10.  `logout` (through `clearAuthToken`) deletes only the auth
record: for every prior configuration the `activeProject` key — the only
other key of the persisted record — is unchanged, and the auth record is
gone. -/
theorem logout_frame (c : CliConfig) :
    (logout c).1.activeProject = c.activeProject ∧
    getActiveProject (logout c).1 = getActiveProject c ∧
    (logout c).1.auth = none :=
  ⟨rfl, rfl, rfl⟩
